import Mathlib

/-!
Verification development for the bag-factory manufacturing back-office schema
(`app/models.py`).  The persisted entities and their create/update projections
are embedded as Lean structures; SQLModel `Decimal` columns are modelled as
exact rationals (`Rat`), dates and timestamps as opaque `Nat` instants.
Operations that live in the (external) data-access layer are modelled from the
specification where so noted.
-/

namespace BagFactory

/-- Exact decimal values: Python `Decimal` arithmetic is exact base-10
arithmetic, a subfield of the rationals closed under `+`, `-`, `*`. -/
abbrev Dec := Rat

/-- Opaque instant for `datetime` columns. -/
abbrev Instant := Nat

/-- Opaque day for `date` columns. -/
abbrev Day := Nat

/-- Enum `UserRole` (models.py lines 9-13). -/
inductive UserRole where
  | administrator
  | inventory_manager
  | financial_staff
  | production_manager
deriving DecidableEq, Repr

/-- Enum `InventoryMovementType` (models.py lines 16-19). -/
inductive InventoryMovementType where
  | IN
  | OUT
  | ADJUSTMENT
deriving DecidableEq, Repr

/-- Enum `OrderStatus` (models.py lines 22-27). -/
inductive OrderStatus where
  | pending
  | in_progress
  | completed
  | cancelled
  | delivered
deriving DecidableEq, Repr

/-- Enum `TransactionType` (models.py lines 30-32). -/
inductive TransactionType where
  | income
  | expense
deriving DecidableEq, Repr

/-- Enum `StockOpnameStatus` (models.py lines 35-39). -/
inductive StockOpnameStatus where
  | planned
  | in_progress
  | completed
  | cancelled
deriving DecidableEq, Repr

/-- Persisted entity `User` (models.py lines 43-54); relationship attributes
are ORM conveniences, not columns, and are omitted. -/
structure User where
  id : Option Nat
  username : String
  email : String
  password_hash : String
  full_name : String
  role : UserRole
  is_active : Bool
  created_at : Instant
  updated_at : Option Instant
deriving DecidableEq, Repr

/-- Persisted entity `RawMaterial` (models.py lines 63-78). -/
structure RawMaterial where
  id : Option Nat
  code : String
  name : String
  description : String
  unit : String
  unit_price : Dec
  current_stock : Dec
  minimum_stock : Dec
  maximum_stock : Option Dec
  supplier_name : String
  supplier_contact : String
  created_at : Instant
  updated_at : Option Instant
deriving DecidableEq, Repr

/-- Persisted entity `InventoryMovement` (models.py lines 86-99). -/
structure InventoryMovement where
  id : Option Nat
  raw_material_id : Nat
  user_id : Nat
  movement_type : InventoryMovementType
  quantity : Dec
  unit_price : Dec
  total_value : Dec
  reference_number : String
  notes : String
  movement_date : Instant
  created_at : Instant
deriving DecidableEq, Repr

/-- Persisted entity `StockOpnameItem` (models.py lines 127-138). -/
structure StockOpnameItem where
  id : Option Nat
  stock_opname_id : Nat
  raw_material_id : Nat
  system_stock : Dec
  physical_stock : Option Dec
  difference : Option Dec
  notes : String
  counted_at : Option Instant
  created_at : Instant
deriving DecidableEq, Repr

/-- Persisted entity `Order` (models.py lines 164-178). -/
structure Order where
  id : Option Nat
  order_number : String
  customer_id : Nat
  status : OrderStatus
  order_date : Day
  due_date : Day
  completion_date : Option Day
  delivery_date : Option Day
  total_amount : Dec
  notes : String
  created_at : Instant
  updated_at : Option Instant
deriving DecidableEq, Repr

/-- Persisted entity `OrderItem` (models.py lines 201-213). -/
structure OrderItem where
  id : Option Nat
  order_id : Nat
  product_id : Option Nat
  raw_material_id : Option Nat
  item_name : String
  quantity : Dec
  unit_price : Dec
  total_price : Dec
  notes : String
  created_at : Instant
deriving DecidableEq, Repr

/-- Non-persisted shape `UserUpdate` (models.py lines 309-314): every field
optional, absence meaning leave unchanged. -/
structure UserUpdate where
  username : Option String
  email : Option String
  full_name : Option String
  role : Option UserRole
  is_active : Option Bool
deriving DecidableEq, Repr

/-- Non-persisted shape `RawMaterialCreate` (models.py lines 317-326). -/
structure RawMaterialCreate where
  code : String
  name : String
  description : String
  unit : String
  unit_price : Dec
  minimum_stock : Dec
  maximum_stock : Option Dec
  supplier_name : String
  supplier_contact : String
deriving DecidableEq, Repr

/-- Non-persisted shape `RawMaterialUpdate` (models.py lines 329-337).  It
carries neither `code` nor `current_stock`. -/
structure RawMaterialUpdate where
  name : Option String
  description : Option String
  unit : Option String
  unit_price : Option Dec
  minimum_stock : Option Dec
  maximum_stock : Option Dec
  supplier_name : Option String
  supplier_contact : Option String
deriving DecidableEq, Repr

/-- Non-persisted shape `InventoryMovementCreate` (models.py lines 340-346).
It has no `total_value` field and no `user_id` field. -/
structure InventoryMovementCreate where
  raw_material_id : Nat
  movement_type : InventoryMovementType
  quantity : Dec
  unit_price : Dec
  reference_number : String
  notes : String
deriving DecidableEq, Repr

/-- Non-persisted shape `OrderCreate` (models.py lines 359-363). -/
structure OrderCreate where
  order_number : String
  customer_id : Nat
  due_date : Day
  notes : String
deriving DecidableEq, Repr

/-- Non-persisted shape `OrderUpdate` (models.py lines 366-371). -/
structure OrderUpdate where
  status : Option OrderStatus
  due_date : Option Day
  completion_date : Option Day
  delivery_date : Option Day
  notes : Option String
deriving DecidableEq, Repr

/-- The all-absent `UserUpdate`. -/
def emptyUserUpdate : UserUpdate := ⟨none, none, none, none, none⟩

/-- The all-absent `RawMaterialUpdate`. -/
def emptyRawMaterialUpdate : RawMaterialUpdate :=
  ⟨none, none, none, none, none, none, none, none⟩

/-- The all-absent `OrderUpdate`. -/
def emptyOrderUpdate : OrderUpdate := ⟨none, none, none, none, none⟩

/-- Modelled from the spec: the API layer applies a `UserUpdate` to a stored
`User`; the update code itself is not in the repository.  Per the spec, an
absent field leaves the stored value unchanged and an updated-at marker is
stamped. -/
def applyUserUpdate (u : User) (up : UserUpdate) (now : Instant) : User :=
  { u with
    username := up.username.getD u.username
    email := up.email.getD u.email
    full_name := up.full_name.getD u.full_name
    role := up.role.getD u.role
    is_active := up.is_active.getD u.is_active
    updated_at := some now }

/-- Modelled from the spec: the API layer applies a `RawMaterialUpdate` to a
stored `RawMaterial`; the update code itself is not in the repository.  Only
the fields present on the shape (models.py lines 329-337) can be written. -/
def applyRawMaterialUpdate (m : RawMaterial) (up : RawMaterialUpdate)
    (now : Instant) : RawMaterial :=
  { m with
    name := up.name.getD m.name
    description := up.description.getD m.description
    unit := up.unit.getD m.unit
    unit_price := up.unit_price.getD m.unit_price
    minimum_stock := up.minimum_stock.getD m.minimum_stock
    maximum_stock :=
      match up.maximum_stock with
      | some v => some v
      | none => m.maximum_stock
    supplier_name := up.supplier_name.getD m.supplier_name
    supplier_contact := up.supplier_contact.getD m.supplier_contact
    updated_at := some now }

/-- Modelled from the spec: the API layer applies an `OrderUpdate` to a stored
`Order`; the update code itself is not in the repository. -/
def applyOrderUpdate (o : Order) (up : OrderUpdate) (now : Instant) : Order :=
  { o with
    status := up.status.getD o.status
    due_date := up.due_date.getD o.due_date
    completion_date :=
      match up.completion_date with
      | some d => some d
      | none => o.completion_date
    delivery_date :=
      match up.delivery_date with
      | some d => some d
      | none => o.delivery_date
    notes := up.notes.getD o.notes
    updated_at := some now }

/-- Constructing an `InventoryMovement` row from an `InventoryMovementCreate`
shape with the entity's declared column defaults (models.py lines 86-99):
`total_value` defaults to `Decimal("0")` and the shape carries no such field,
so the stored value is `0`; `user_id` and the identifier/timestamps are
supplied by the caller. -/
def movementFromCreateDefaults (c : InventoryMovementCreate)
    (uid mid : Nat) (now : Instant) : InventoryMovement :=
  { id := some mid
    raw_material_id := c.raw_material_id
    user_id := uid
    movement_type := c.movement_type
    quantity := c.quantity
    unit_price := c.unit_price
    total_value := 0
    reference_number := c.reference_number
    notes := c.notes
    movement_date := now
    created_at := now }

/-- Signed effect of a movement on its material's stock, per the movement-type
enum (models.py lines 16-19): `in` and `adjustment` add the quantity, `out`
subtracts it. -/
def signedQuantity (mv : InventoryMovement) : Dec :=
  match mv.movement_type with
  | .IN => mv.quantity
  | .ADJUSTMENT => mv.quantity
  | .OUT => -mv.quantity

/-- Net effect on the material identified by `rid` of replaying a movement
ledger. -/
def replayStock (rid : Option Nat) : List InventoryMovement → Dec
  | [] => 0
  | mv :: ms =>
      (if rid = some mv.raw_material_id then signedQuantity mv else 0) +
        replayStock rid ms

/-- Constructing a `RawMaterial` row from a `RawMaterialCreate` shape with the
entity's declared column defaults (models.py lines 63-78): `current_stock`
defaults to `Decimal("0")`. -/
def materialFromCreate (c : RawMaterialCreate) (mid : Nat)
    (now : Instant) : RawMaterial :=
  { id := some mid
    code := c.code
    name := c.name
    description := c.description
    unit := c.unit
    unit_price := c.unit_price
    current_stock := 0
    minimum_stock := c.minimum_stock
    maximum_stock := c.maximum_stock
    supplier_name := c.supplier_name
    supplier_contact := c.supplier_contact
    created_at := now
    updated_at := none }

/-- The inventory-relevant slice of the persistent store. -/
structure InventoryState where
  materials : List RawMaterial
  movements : List InventoryMovement
deriving DecidableEq, Repr

/-- Modelled from the spec: the data-access layer records an inventory
movement; that code is not in the repository.  Per the spec it appends an
immutable ledger entry with `total_value = quantity * unit_price` and keeps
the denormalized `current_stock` consistent by applying the signed quantity. -/
def recordedMovement (c : InventoryMovementCreate) (uid mid : Nat)
    (now : Instant) : InventoryMovement :=
  { movementFromCreateDefaults c uid mid now with
    total_value := c.quantity * c.unit_price }

/-- Modelled from the spec: the state transition that records a movement and
updates the affected material's running total. -/
def recordMovementOp (s : InventoryState) (c : InventoryMovementCreate)
    (uid mid : Nat) (now : Instant) : InventoryState :=
  let mv := recordedMovement c uid mid now
  { materials :=
      s.materials.map fun m =>
        if m.id = some c.raw_material_id then
          { m with current_stock := m.current_stock + signedQuantity mv }
        else m
    movements := mv :: s.movements }

/-- Modelled from the spec: the state transition that creates a raw material
with a fresh auto-assigned identifier. -/
def createMaterialOp (s : InventoryState) (c : RawMaterialCreate)
    (mid : Nat) (now : Instant) : InventoryState :=
  { s with materials := s.materials ++ [materialFromCreate c mid now] }

/-- Modelled from the spec: the state transition that applies a
`RawMaterialUpdate` to the material identified by `rid`. -/
def updateMaterialOp (s : InventoryState) (rid : Nat)
    (up : RawMaterialUpdate) (now : Instant) : InventoryState :=
  { s with
    materials :=
      s.materials.map fun m =>
        if m.id = some rid then applyRawMaterialUpdate m up now else m }

/-- The inventory states reachable from an empty store through the modelled
operations.  Material identifiers are auto-assigned surrogates, so a newly
created material's identifier is not already referenced by the ledger. -/
inductive InvReachable : InventoryState → Prop where
  | init : InvReachable ⟨[], []⟩
  | create (s : InventoryState) (c : RawMaterialCreate) (mid : Nat)
      (now : Instant) (hs : InvReachable s)
      (hfresh : ∀ mv ∈ s.movements, mv.raw_material_id ≠ mid) :
      InvReachable (createMaterialOp s c mid now)
  | record (s : InventoryState) (c : InventoryMovementCreate)
      (uid mid : Nat) (now : Instant) (hs : InvReachable s) :
      InvReachable (recordMovementOp s c uid mid now)
  | update (s : InventoryState) (rid : Nat) (up : RawMaterialUpdate)
      (now : Instant) (hs : InvReachable s) :
      InvReachable (updateMaterialOp s rid up now)

@[simp]
lemma replayStock_nil (rid : Option Nat) : replayStock rid [] = 0 := rfl

@[simp]
lemma replayStock_cons (rid : Option Nat) (mv : InventoryMovement)
    (ms : List InventoryMovement) :
    replayStock rid (mv :: ms) =
      (if rid = some mv.raw_material_id then signedQuantity mv else 0) +
        replayStock rid ms := rfl

@[simp]
lemma recordedMovement_raw_material_id (c : InventoryMovementCreate)
    (uid mid : Nat) (now : Instant) :
    (recordedMovement c uid mid now).raw_material_id = c.raw_material_id := rfl

lemma replayStock_eq_zero {mid : Nat} {ms : List InventoryMovement}
    (h : ∀ mv ∈ ms, mv.raw_material_id ≠ mid) :
    replayStock (some mid) ms = 0 := by
  induction ms with
  | nil => rfl
  | cons mv ms ih =>
      have h1 : mv.raw_material_id ≠ mid := h mv (List.mem_cons_self _ _)
      rw [replayStock_cons, if_neg, ih fun v hv => h v (List.mem_cons_of_mem _ hv),
        add_zero]
      intro hc
      exact h1 (Option.some.inj hc).symm

/-- C1: in every reachable inventory state, each raw material's stored
`current_stock` equals the result of replaying all its inventory movements,
with `in` and `adjustment` entries adding their quantity and `out` entries
subtracting it; every modelled operation, including the one that records a
movement, preserves this equality. -/
theorem current_stock_replay_invariant (s : InventoryState)
    (h : InvReachable s) :
    ∀ m ∈ s.materials, m.current_stock = replayStock m.id s.movements := by
  induction h with
  | init =>
      intro m hm
      cases hm
  | create s c mid now hs hfresh ih =>
      intro m hm
      simp only [createMaterialOp] at hm ⊢
      rcases List.mem_append.1 hm with hold | hnew
      · exact ih m hold
      · rcases List.mem_singleton.1 hnew with rfl
        exact (replayStock_eq_zero hfresh).symm
  | record s c uid mid now hs ih =>
      intro m' hm'
      simp only [recordMovementOp] at hm' ⊢
      rcases List.mem_map.1 hm' with ⟨m, hm, rfl⟩
      by_cases hid : m.id = some c.raw_material_id
      · rw [if_pos hid]
        show m.current_stock + _ =
          replayStock m.id (recordedMovement c uid mid now :: s.movements)
        rw [replayStock_cons, recordedMovement_raw_material_id, if_pos hid,
          ih m hm, add_comm]
      · rw [if_neg hid]
        rw [replayStock_cons, recordedMovement_raw_material_id, if_neg hid,
          ih m hm, zero_add]
  | update s rid up now hs ih =>
      intro m' hm'
      simp only [updateMaterialOp] at hm' ⊢
      rcases List.mem_map.1 hm' with ⟨m, hm, rfl⟩
      by_cases hid : m.id = some rid
      · rw [if_pos hid]
        show m.current_stock = replayStock m.id s.movements
        exact ih m hm
      · rw [if_neg hid]
        exact ih m hm

/-- C3: in every reachable inventory state, each movement ledger entry
satisfies `total_value = quantity * unit_price`. -/
theorem movement_total_value_invariant (s : InventoryState)
    (h : InvReachable s) :
    ∀ mv ∈ s.movements, mv.total_value = mv.quantity * mv.unit_price := by
  induction h with
  | init =>
      intro mv hmv
      cases hmv
  | create s c mid now hs hfresh ih =>
      intro mv hmv
      exact ih mv hmv
  | record s c uid mid now hs ih =>
      intro mv hmv
      simp only [recordMovementOp] at hmv
      rcases List.mem_cons.1 hmv with rfl | hold
      · rfl
      · exact ih mv hold
  | update s rid up now hs ih =>
      intro mv hmv
      exact ih mv hmv

/-- Concrete example data: a raw-material create shape. -/
def exMaterialCreate : RawMaterialCreate :=
  ⟨"RM-001", "Cotton fabric", "", "meter", 5, 10, none, "", ""⟩

/-- Concrete example data: a stock-in movement create shape for material 1. -/
def exMovementCreate : InventoryMovementCreate :=
  ⟨1, .IN, 4, 3, "", ""⟩

/-- Example state: material 1 created at time 0, then a stock-in of 4 units
recorded by user 7 at time 2. -/
def exState2 : InventoryState :=
  recordMovementOp (createMaterialOp ⟨[], []⟩ exMaterialCreate 1 0)
    exMovementCreate 7 1 2

lemma exState2_reachable : InvReachable exState2 :=
  InvReachable.record _ _ _ _ _
    (InvReachable.create _ _ _ _ InvReachable.init
      fun mv hmv => absurd hmv (List.not_mem_nil mv))

/-- The raw-material row stored in `exState2`: created with zero stock, then
incremented by the recorded stock-in. -/
def exMaterial : RawMaterial :=
  { materialFromCreate exMaterialCreate 1 0 with
    current_stock := 0 + signedQuantity (recordedMovement exMovementCreate 7 1 2) }

/-- The movement row stored in `exState2`. -/
def exMovement : InventoryMovement :=
  recordedMovement exMovementCreate 7 1 2

lemma exState2_materials : exState2.materials = [exMaterial] := rfl

lemma exState2_movements : exState2.movements = [exMovement] := rfl

/-- Witness for C1 at the concrete state `exState2`. -/
theorem current_stock_replay_invariant_witness :
    exMaterial.current_stock = replayStock exMaterial.id exState2.movements :=
  current_stock_replay_invariant exState2 exState2_reachable exMaterial
    (by rw [exState2_materials]; exact List.mem_singleton.2 rfl)

/-- Witness for C3 at the concrete state `exState2`. -/
theorem movement_total_value_invariant_witness :
    exMovement.total_value = exMovement.quantity * exMovement.unit_price :=
  movement_total_value_invariant exState2 exState2_reachable exMovement
    (by rw [exState2_movements]; exact List.mem_singleton.2 rfl)

/-- Constructing an `Order` row from an `OrderCreate` shape with the entity's
declared column defaults (models.py lines 164-178): `status` defaults to
`pending`, `total_amount` to `Decimal("0")`, `order_date` to today. -/
def orderFromCreate (c : OrderCreate) (oid : Nat) (today : Day)
    (now : Instant) : Order :=
  { id := some oid
    order_number := c.order_number
    customer_id := c.customer_id
    status := .pending
    order_date := today
    due_date := c.due_date
    completion_date := none
    delivery_date := none
    total_amount := 0
    notes := c.notes
    created_at := now
    updated_at := none }

/-- The order-relevant slice of the persistent store. -/
structure OrderState where
  orders : List Order
  items : List OrderItem
deriving DecidableEq, Repr

/-- Net total of the order identified by `oid` from replaying order items. -/
def replayAmount (oid : Option Nat) : List OrderItem → Dec
  | [] => 0
  | it :: its =>
      (if oid = some it.order_id then it.total_price else 0) +
        replayAmount oid its

/-- Modelled from the spec: the data-access layer adds an order item with
`total_price = quantity * unit_price`; that code is not in the repository. -/
def orderItemRow (oid : Nat) (pid rmid : Option Nat) (iname : String)
    (q p : Dec) (nts : String) (iid : Nat) (now : Instant) : OrderItem :=
  { id := some iid
    order_id := oid
    product_id := pid
    raw_material_id := rmid
    item_name := iname
    quantity := q
    unit_price := p
    total_price := q * p
    notes := nts
    created_at := now }

/-- Modelled from the spec: the state transition that creates an order. -/
def createOrderOp (s : OrderState) (c : OrderCreate) (oid : Nat)
    (today : Day) (now : Instant) : OrderState :=
  { s with orders := s.orders ++ [orderFromCreate c oid today now] }

/-- Modelled from the spec: the state transition that adds an order item and
keeps the owning order's denormalized `total_amount` consistent. -/
def addOrderItemOp (s : OrderState) (oid : Nat) (pid rmid : Option Nat)
    (iname : String) (q p : Dec) (nts : String) (iid : Nat)
    (now : Instant) : OrderState :=
  let it := orderItemRow oid pid rmid iname q p nts iid now
  { orders :=
      s.orders.map fun o =>
        if o.id = some oid then
          { o with total_amount := o.total_amount + it.total_price }
        else o
    items := it :: s.items }

/-- Modelled from the spec: the state transition that applies an `OrderUpdate`
to the order identified by `oid`. -/
def updateOrderOp (s : OrderState) (oid : Nat) (up : OrderUpdate)
    (now : Instant) : OrderState :=
  { s with
    orders :=
      s.orders.map fun o =>
        if o.id = some oid then applyOrderUpdate o up now else o }

/-- The order states reachable from an empty store through the modelled
operations.  Order identifiers are auto-assigned surrogates, so a newly
created order's identifier is not already referenced by any item. -/
inductive OrdReachable : OrderState → Prop where
  | init : OrdReachable ⟨[], []⟩
  | create (s : OrderState) (c : OrderCreate) (oid : Nat) (today : Day)
      (now : Instant) (hs : OrdReachable s)
      (hfresh : ∀ it ∈ s.items, it.order_id ≠ oid) :
      OrdReachable (createOrderOp s c oid today now)
  | addItem (s : OrderState) (oid : Nat) (pid rmid : Option Nat)
      (iname : String) (q p : Dec) (nts : String) (iid : Nat)
      (now : Instant) (hs : OrdReachable s) :
      OrdReachable (addOrderItemOp s oid pid rmid iname q p nts iid now)
  | update (s : OrderState) (oid : Nat) (up : OrderUpdate) (now : Instant)
      (hs : OrdReachable s) :
      OrdReachable (updateOrderOp s oid up now)

@[simp]
lemma replayAmount_nil (oid : Option Nat) : replayAmount oid [] = 0 := rfl

@[simp]
lemma replayAmount_cons (oid : Option Nat) (it : OrderItem)
    (its : List OrderItem) :
    replayAmount oid (it :: its) =
      (if oid = some it.order_id then it.total_price else 0) +
        replayAmount oid its := rfl

@[simp]
lemma orderItemRow_order_id (oid : Nat) (pid rmid : Option Nat)
    (iname : String) (q p : Dec) (nts : String) (iid : Nat) (now : Instant) :
    (orderItemRow oid pid rmid iname q p nts iid now).order_id = oid := rfl

lemma replayAmount_eq_zero {oid : Nat} {its : List OrderItem}
    (h : ∀ it ∈ its, it.order_id ≠ oid) :
    replayAmount (some oid) its = 0 := by
  induction its with
  | nil => rfl
  | cons it its ih =>
      have h1 : it.order_id ≠ oid := h it (List.mem_cons_self _ _)
      rw [replayAmount_cons, if_neg, ih fun v hv => h v (List.mem_cons_of_mem _ hv),
        add_zero]
      intro hc
      exact h1 (Option.some.inj hc).symm

/-- C2: in every reachable order state, each order item satisfies
`total_price = quantity * unit_price`, and each order's stored `total_amount`
equals the sum of the `total_price` values of its items. -/
theorem order_totals_invariant (s : OrderState) (h : OrdReachable s) :
    (∀ it ∈ s.items, it.total_price = it.quantity * it.unit_price) ∧
      (∀ o ∈ s.orders, o.total_amount = replayAmount o.id s.items) := by
  induction h with
  | init =>
      exact ⟨fun it hit => absurd hit (List.not_mem_nil it),
        fun o ho => absurd ho (List.not_mem_nil o)⟩
  | create s c oid today now hs hfresh ih =>
      constructor
      · intro it hit
        exact ih.1 it hit
      · intro o ho
        simp only [createOrderOp] at ho ⊢
        rcases List.mem_append.1 ho with hold | hnew
        · exact ih.2 o hold
        · rcases List.mem_singleton.1 hnew with rfl
          exact (replayAmount_eq_zero hfresh).symm
  | addItem s oid pid rmid iname q p nts iid now hs ih =>
      constructor
      · intro it hit
        simp only [addOrderItemOp] at hit
        rcases List.mem_cons.1 hit with rfl | hold
        · rfl
        · exact ih.1 it hold
      · intro o' ho'
        simp only [addOrderItemOp] at ho' ⊢
        rcases List.mem_map.1 ho' with ⟨o, ho, rfl⟩
        by_cases hid : o.id = some oid
        · rw [if_pos hid]
          show o.total_amount + _ =
            replayAmount o.id (orderItemRow oid pid rmid iname q p nts iid now ::
              s.items)
          rw [replayAmount_cons, orderItemRow_order_id, if_pos hid, ih.2 o ho,
            add_comm]
        · rw [if_neg hid]
          rw [replayAmount_cons, orderItemRow_order_id, if_neg hid, ih.2 o ho,
            zero_add]
  | update s oid up now hs ih =>
      constructor
      · intro it hit
        exact ih.1 it hit
      · intro o' ho'
        simp only [updateOrderOp] at ho' ⊢
        rcases List.mem_map.1 ho' with ⟨o, ho, rfl⟩
        by_cases hid : o.id = some oid
        · rw [if_pos hid]
          show o.total_amount = replayAmount o.id s.items
          exact ih.2 o ho
        · rw [if_neg hid]
          exact ih.2 o ho

/-- Concrete example data: an order create shape for customer 3 due day 30. -/
def exOrderCreate : OrderCreate := ⟨"ORD-001", 3, 30, ""⟩

/-- Example state: order 1 created, then one item of 2 units at price 6. -/
def exOrderState : OrderState :=
  addOrderItemOp (createOrderOp ⟨[], []⟩ exOrderCreate 1 5 5) 1 (some 4) none
    "Tote bag" 2 6 "" 1 6

lemma exOrderState_reachable : OrdReachable exOrderState :=
  OrdReachable.addItem _ _ _ _ _ _ _ _ _ _
    (OrdReachable.create _ _ _ _ _ OrdReachable.init
      fun it hit => absurd hit (List.not_mem_nil it))

/-- The order row stored in `exOrderState`. -/
def exOrder : Order :=
  { orderFromCreate exOrderCreate 1 5 5 with
    total_amount := 0 + (orderItemRow 1 (some 4) none "Tote bag" 2 6 "" 1 6).total_price }

lemma exOrderState_orders : exOrderState.orders = [exOrder] := rfl

/-- Witness for C2 at the concrete state `exOrderState`. -/
theorem order_totals_invariant_witness :
    exOrder.total_amount = replayAmount exOrder.id exOrderState.items :=
  (order_totals_invariant exOrderState exOrderState_reachable).2 exOrder
    (by rw [exOrderState_orders]; exact List.mem_singleton.2 rfl)

/-- A fresh `StockOpnameItem` row with the entity's declared column defaults
(models.py lines 127-138): `physical_stock`, `difference` and `counted_at`
all default to absent; `system_stock` is the snapshot taken at creation. -/
def opnameItemRow (soid rmid : Nat) (sys : Dec) (iid : Nat)
    (now : Instant) : StockOpnameItem :=
  { id := some iid
    stock_opname_id := soid
    raw_material_id := rmid
    system_stock := sys
    physical_stock := none
    difference := none
    notes := ""
    counted_at := none
    created_at := now }

/-- Modelled from the spec: once a physical count is taken the data-access
layer sets `physical_stock` and computes `difference = physical - system`;
that code is not in the repository. -/
def countItemOp (items : List StockOpnameItem) (iid : Nat) (p : Dec)
    (now : Instant) : List StockOpnameItem :=
  items.map fun it =>
    if it.id = some iid then
      { it with
        physical_stock := some p
        difference := some (p - it.system_stock)
        counted_at := some now }
    else it

/-- The opname-item collections reachable from an empty store: items are
created uncounted and later counted. -/
inductive OpnReachable : List StockOpnameItem → Prop where
  | init : OpnReachable []
  | createItem (items : List StockOpnameItem) (soid rmid : Nat) (sys : Dec)
      (iid : Nat) (now : Instant) (hs : OpnReachable items) :
      OpnReachable (items ++ [opnameItemRow soid rmid sys iid now])
  | countItem (items : List StockOpnameItem) (iid : Nat) (p : Dec)
      (now : Instant) (hs : OpnReachable items) :
      OpnReachable (countItemOp items iid p now)

/-- C4: in every reachable opname-item collection, an item whose
`physical_stock` is set has `difference = physical_stock - system_stock`. -/
theorem opname_item_difference_invariant (items : List StockOpnameItem)
    (h : OpnReachable items) :
    ∀ it ∈ items, ∀ p : Dec, it.physical_stock = some p →
      it.difference = some (p - it.system_stock) := by
  induction h with
  | init =>
      intro it hit
      cases hit
  | createItem items soid rmid sys iid now hs ih =>
      intro it hit p hp
      rcases List.mem_append.1 hit with hold | hnew
      · exact ih it hold p hp
      · rcases List.mem_singleton.1 hnew with rfl
        cases hp
  | countItem items iid p0 now hs ih =>
      intro it' hit' p hp
      simp only [countItemOp] at hit'
      rcases List.mem_map.1 hit' with ⟨it, hit, rfl⟩
      by_cases hid : it.id = some iid
      · rw [if_pos hid] at hp ⊢
        have hp' : some p0 = some p := hp
        rcases Option.some.inj hp' with rfl
        rfl
      · rw [if_neg hid] at hp ⊢
        exact ih it hit p hp

/-- Example opname items: item 1 for material 1 with system stock 9, counted
at 7 units; item 2 for material 2, not yet counted. -/
def exOpnameItems : List StockOpnameItem :=
  countItemOp
    ((([] : List StockOpnameItem) ++ [opnameItemRow 1 1 9 1 0]) ++
      [opnameItemRow 1 2 5 2 0]) 1 7 3

lemma exOpnameItems_reachable : OpnReachable exOpnameItems :=
  OpnReachable.countItem _ _ _ _
    (OpnReachable.createItem _ _ _ _ _ _
      (OpnReachable.createItem _ _ _ _ _ _ OpnReachable.init))

/-- The counted item stored in `exOpnameItems`. -/
def exCountedItem : StockOpnameItem :=
  { opnameItemRow 1 1 9 1 0 with
    physical_stock := some 7
    difference := some (7 - (9 : Dec))
    counted_at := some 3 }

lemma exOpnameItems_eq :
    exOpnameItems = [exCountedItem, opnameItemRow 1 2 5 2 0] := rfl

/-- Witness for C4 at the concrete collection `exOpnameItems`. -/
theorem opname_item_difference_invariant_witness :
    exCountedItem.difference = some (7 - exCountedItem.system_stock) :=
  opname_item_difference_invariant exOpnameItems exOpnameItems_reachable
    exCountedItem (by rw [exOpnameItems_eq]; exact List.mem_cons_self _ _) 7 rfl

/-- C6: applying an all-absent update shape leaves every field of the target
entity unchanged except that the updated-at marker is stamped; this holds for
the three entities with update shapes (`User`, `RawMaterial`, `Order`). -/
theorem empty_update_frames :
    (∀ (u : User) (now : Instant),
        applyUserUpdate u emptyUserUpdate now = { u with updated_at := some now }) ∧
      (∀ (m : RawMaterial) (now : Instant),
        applyRawMaterialUpdate m emptyRawMaterialUpdate now =
          { m with updated_at := some now }) ∧
      (∀ (o : Order) (now : Instant),
        applyOrderUpdate o emptyOrderUpdate now =
          { o with updated_at := some now }) :=
  ⟨fun _ _ => rfl, fun _ _ => rfl, fun _ _ => rfl⟩

/-- C9: an `InventoryMovement` built from an `InventoryMovementCreate` shape
using only the shape's fields and the entity's declared defaults stores
`total_value = 0` whatever the quantity and unit price, because the create
shape carries no `total_value` field and the column default is
`Decimal("0")`. -/
theorem movement_from_create_total_value_zero :
    ∀ (c : InventoryMovementCreate) (uid mid : Nat) (now : Instant),
      (movementFromCreateDefaults c uid mid now).total_value = 0 :=
  fun _ _ _ _ => rfl

/-- C10: `RawMaterialUpdate` carries neither `code` nor `current_stock`, so an
update leaves both unchanged on the target material; within the modelled
inventory operations an update step changes no material's `current_stock` and
records no movement, so the running total moves only through recorded
movements. -/
theorem raw_material_update_frame :
    (∀ (m : RawMaterial) (up : RawMaterialUpdate) (now : Instant),
        (applyRawMaterialUpdate m up now).code = m.code ∧
          (applyRawMaterialUpdate m up now).current_stock = m.current_stock) ∧
      (∀ (s : InventoryState) (rid : Nat) (up : RawMaterialUpdate)
          (now : Instant),
        (updateMaterialOp s rid up now).materials.map RawMaterial.current_stock =
            s.materials.map RawMaterial.current_stock ∧
          (updateMaterialOp s rid up now).movements = s.movements) := by
  refine ⟨fun m up now => ⟨rfl, rfl⟩, fun s rid up now => ⟨?_, rfl⟩⟩
  simp only [updateMaterialOp, List.map_map]
  refine List.map_congr_left fun m _ => ?_
  by_cases hid : m.id = some rid
  · simp only [Function.comp_apply, if_pos hid]
    rfl
  · simp only [Function.comp_apply, if_neg hid]

/-- Column type descriptors as declared in models.py. -/
inductive FType where
  | intT
  | strT (maxLen : Nat)
  | strMinT (minLen : Nat)
  | decimalT (places digits : Nat)
  | dateTimeT
  | dayT
  | boolT
  | enumT (ename : String)
  | optionT (t : FType)
deriving DecidableEq, Repr

/-- One declared column: its name, type, whether the declaration gives it a
default (including `default_factory`), and whether it is `unique=True`. -/
structure FieldSpec where
  fname : String
  ftype : FType
  hasDefault : Bool
  uniq : Bool
deriving DecidableEq, Repr

/-- Columns of `User` (models.py lines 43-54). -/
def userFields : List FieldSpec :=
  [⟨"id", .optionT .intT, true, false⟩,
   ⟨"username", .strT 50, false, true⟩,
   ⟨"email", .strT 255, false, true⟩,
   ⟨"password_hash", .strT 255, false, false⟩,
   ⟨"full_name", .strT 100, false, false⟩,
   ⟨"role", .enumT "UserRole", true, false⟩,
   ⟨"is_active", .boolT, true, false⟩,
   ⟨"created_at", .dateTimeT, true, false⟩,
   ⟨"updated_at", .optionT .dateTimeT, true, false⟩]

/-- Columns of `RawMaterial` (models.py lines 63-78). -/
def rawMaterialFields : List FieldSpec :=
  [⟨"id", .optionT .intT, true, false⟩,
   ⟨"code", .strT 50, false, true⟩,
   ⟨"name", .strT 200, false, false⟩,
   ⟨"description", .strT 1000, true, false⟩,
   ⟨"unit", .strT 20, false, false⟩,
   ⟨"unit_price", .decimalT 2 12, true, false⟩,
   ⟨"current_stock", .decimalT 2 12, true, false⟩,
   ⟨"minimum_stock", .decimalT 2 12, true, false⟩,
   ⟨"maximum_stock", .optionT (.decimalT 2 12), true, false⟩,
   ⟨"supplier_name", .strT 200, true, false⟩,
   ⟨"supplier_contact", .strT 200, true, false⟩,
   ⟨"created_at", .dateTimeT, true, false⟩,
   ⟨"updated_at", .optionT .dateTimeT, true, false⟩]

/-- Columns of `InventoryMovement` (models.py lines 86-99). -/
def inventoryMovementFields : List FieldSpec :=
  [⟨"id", .optionT .intT, true, false⟩,
   ⟨"raw_material_id", .intT, false, false⟩,
   ⟨"user_id", .intT, false, false⟩,
   ⟨"movement_type", .enumT "InventoryMovementType", false, false⟩,
   ⟨"quantity", .decimalT 2 12, false, false⟩,
   ⟨"unit_price", .decimalT 2 12, true, false⟩,
   ⟨"total_value", .decimalT 2 12, true, false⟩,
   ⟨"reference_number", .strT 100, true, false⟩,
   ⟨"notes", .strT 500, true, false⟩,
   ⟨"movement_date", .dateTimeT, true, false⟩,
   ⟨"created_at", .dateTimeT, true, false⟩]

/-- Columns of `StockOpname` (models.py lines 107-120). -/
def stockOpnameFields : List FieldSpec :=
  [⟨"id", .optionT .intT, true, false⟩,
   ⟨"opname_number", .strT 50, false, true⟩,
   ⟨"title", .strT 200, false, false⟩,
   ⟨"description", .strT 1000, true, false⟩,
   ⟨"user_id", .intT, false, false⟩,
   ⟨"status", .enumT "StockOpnameStatus", true, false⟩,
   ⟨"planned_date", .dayT, false, false⟩,
   ⟨"started_at", .optionT .dateTimeT, true, false⟩,
   ⟨"completed_at", .optionT .dateTimeT, true, false⟩,
   ⟨"created_at", .dateTimeT, true, false⟩,
   ⟨"updated_at", .optionT .dateTimeT, true, false⟩]

/-- Columns of `StockOpnameItem` (models.py lines 127-138). -/
def stockOpnameItemFields : List FieldSpec :=
  [⟨"id", .optionT .intT, true, false⟩,
   ⟨"stock_opname_id", .intT, false, false⟩,
   ⟨"raw_material_id", .intT, false, false⟩,
   ⟨"system_stock", .decimalT 2 12, false, false⟩,
   ⟨"physical_stock", .optionT (.decimalT 2 12), true, false⟩,
   ⟨"difference", .optionT (.decimalT 2 12), true, false⟩,
   ⟨"notes", .strT 500, true, false⟩,
   ⟨"counted_at", .optionT .dateTimeT, true, false⟩,
   ⟨"created_at", .dateTimeT, true, false⟩]

/-- Columns of `Customer` (models.py lines 146-158). -/
def customerFields : List FieldSpec :=
  [⟨"id", .optionT .intT, true, false⟩,
   ⟨"name", .strT 200, false, false⟩,
   ⟨"company", .strT 200, true, false⟩,
   ⟨"email", .strT 255, true, false⟩,
   ⟨"phone", .strT 50, true, false⟩,
   ⟨"address", .strT 1000, true, false⟩,
   ⟨"city", .strT 100, true, false⟩,
   ⟨"postal_code", .strT 20, true, false⟩,
   ⟨"created_at", .dateTimeT, true, false⟩,
   ⟨"updated_at", .optionT .dateTimeT, true, false⟩]

/-- Columns of `Order` (models.py lines 164-178). -/
def orderFields : List FieldSpec :=
  [⟨"id", .optionT .intT, true, false⟩,
   ⟨"order_number", .strT 50, false, true⟩,
   ⟨"customer_id", .intT, false, false⟩,
   ⟨"status", .enumT "OrderStatus", true, false⟩,
   ⟨"order_date", .dayT, true, false⟩,
   ⟨"due_date", .dayT, false, false⟩,
   ⟨"completion_date", .optionT .dayT, true, false⟩,
   ⟨"delivery_date", .optionT .dayT, true, false⟩,
   ⟨"total_amount", .decimalT 2 15, true, false⟩,
   ⟨"notes", .strT 1000, true, false⟩,
   ⟨"created_at", .dateTimeT, true, false⟩,
   ⟨"updated_at", .optionT .dateTimeT, true, false⟩]

/-- Columns of `Product` (models.py lines 185-195). -/
def productFields : List FieldSpec :=
  [⟨"id", .optionT .intT, true, false⟩,
   ⟨"code", .strT 50, false, true⟩,
   ⟨"name", .strT 200, false, false⟩,
   ⟨"description", .strT 1000, true, false⟩,
   ⟨"category", .strT 100, true, false⟩,
   ⟨"unit_price", .decimalT 2 12, true, false⟩,
   ⟨"created_at", .dateTimeT, true, false⟩,
   ⟨"updated_at", .optionT .dateTimeT, true, false⟩]

/-- Columns of `OrderItem` (models.py lines 201-213). -/
def orderItemFields : List FieldSpec :=
  [⟨"id", .optionT .intT, true, false⟩,
   ⟨"order_id", .intT, false, false⟩,
   ⟨"product_id", .optionT .intT, true, false⟩,
   ⟨"raw_material_id", .optionT .intT, true, false⟩,
   ⟨"item_name", .strT 200, false, false⟩,
   ⟨"quantity", .decimalT 2 12, false, false⟩,
   ⟨"unit_price", .decimalT 2 12, false, false⟩,
   ⟨"total_price", .decimalT 2 12, false, false⟩,
   ⟨"notes", .strT 500, true, false⟩,
   ⟨"created_at", .dateTimeT, true, false⟩]

/-- Columns of `FinancialCategory` (models.py lines 222-230). -/
def financialCategoryFields : List FieldSpec :=
  [⟨"id", .optionT .intT, true, false⟩,
   ⟨"name", .strT 200, false, false⟩,
   ⟨"transaction_type", .enumT "TransactionType", false, false⟩,
   ⟨"description", .strT 500, true, false⟩,
   ⟨"is_active", .boolT, true, false⟩,
   ⟨"created_at", .dateTimeT, true, false⟩]

/-- Columns of `FinancialTransaction` (models.py lines 236-250). -/
def financialTransactionFields : List FieldSpec :=
  [⟨"id", .optionT .intT, true, false⟩,
   ⟨"transaction_number", .strT 50, false, true⟩,
   ⟨"user_id", .intT, false, false⟩,
   ⟨"category_id", .intT, false, false⟩,
   ⟨"transaction_type", .enumT "TransactionType", false, false⟩,
   ⟨"amount", .decimalT 2 15, false, false⟩,
   ⟨"description", .strT 1000, false, false⟩,
   ⟨"reference_number", .strT 100, true, false⟩,
   ⟨"transaction_date", .dayT, true, false⟩,
   ⟨"payment_method", .strT 100, true, false⟩,
   ⟨"created_at", .dateTimeT, true, false⟩,
   ⟨"updated_at", .optionT .dateTimeT, true, false⟩]

/-- Columns of `Department` (models.py lines 258-266). -/
def departmentFields : List FieldSpec :=
  [⟨"id", .optionT .intT, true, false⟩,
   ⟨"name", .strT 200, false, true⟩,
   ⟨"description", .strT 500, true, false⟩,
   ⟨"manager_name", .strT 200, true, false⟩,
   ⟨"is_active", .boolT, true, false⟩,
   ⟨"created_at", .dateTimeT, true, false⟩]

/-- Columns of `Employee` (models.py lines 272-294). -/
def employeeFields : List FieldSpec :=
  [⟨"id", .optionT .intT, true, false⟩,
   ⟨"employee_number", .strT 50, false, true⟩,
   ⟨"full_name", .strT 200, false, false⟩,
   ⟨"email", .strT 255, true, false⟩,
   ⟨"phone", .strT 50, true, false⟩,
   ⟨"address", .strT 1000, true, false⟩,
   ⟨"city", .strT 100, true, false⟩,
   ⟨"postal_code", .strT 20, true, false⟩,
   ⟨"birth_date", .optionT .dayT, true, false⟩,
   ⟨"hire_date", .dayT, true, false⟩,
   ⟨"termination_date", .optionT .dayT, true, false⟩,
   ⟨"department_id", .intT, false, false⟩,
   ⟨"position", .strT 200, false, false⟩,
   ⟨"salary", .optionT (.decimalT 2 12), true, false⟩,
   ⟨"is_active", .boolT, true, false⟩,
   ⟨"emergency_contact_name", .strT 200, true, false⟩,
   ⟨"emergency_contact_phone", .strT 50, true, false⟩,
   ⟨"notes", .strT 1000, true, false⟩,
   ⟨"created_at", .dateTimeT, true, false⟩,
   ⟨"updated_at", .optionT .dateTimeT, true, false⟩]

/-- Fields of the shape `UserCreate` (models.py lines 301-306). -/
def userCreateFields : List FieldSpec :=
  [⟨"username", .strT 50, false, false⟩,
   ⟨"email", .strT 255, false, false⟩,
   ⟨"password", .strMinT 8, false, false⟩,
   ⟨"full_name", .strT 100, false, false⟩,
   ⟨"role", .enumT "UserRole", true, false⟩]

/-- Fields of the shape `UserUpdate` (models.py lines 309-314). -/
def userUpdateFields : List FieldSpec :=
  [⟨"username", .optionT (.strT 50), true, false⟩,
   ⟨"email", .optionT (.strT 255), true, false⟩,
   ⟨"full_name", .optionT (.strT 100), true, false⟩,
   ⟨"role", .optionT (.enumT "UserRole"), true, false⟩,
   ⟨"is_active", .optionT .boolT, true, false⟩]

/-- Fields of the shape `RawMaterialCreate` (models.py lines 317-326). -/
def rawMaterialCreateFields : List FieldSpec :=
  [⟨"code", .strT 50, false, false⟩,
   ⟨"name", .strT 200, false, false⟩,
   ⟨"description", .strT 1000, true, false⟩,
   ⟨"unit", .strT 20, false, false⟩,
   ⟨"unit_price", .decimalT 2 12, true, false⟩,
   ⟨"minimum_stock", .decimalT 2 12, true, false⟩,
   ⟨"maximum_stock", .optionT (.decimalT 2 12), true, false⟩,
   ⟨"supplier_name", .strT 200, true, false⟩,
   ⟨"supplier_contact", .strT 200, true, false⟩]

/-- Fields of the shape `RawMaterialUpdate` (models.py lines 329-337). -/
def rawMaterialUpdateFields : List FieldSpec :=
  [⟨"name", .optionT (.strT 200), true, false⟩,
   ⟨"description", .optionT (.strT 1000), true, false⟩,
   ⟨"unit", .optionT (.strT 20), true, false⟩,
   ⟨"unit_price", .optionT (.decimalT 2 12), true, false⟩,
   ⟨"minimum_stock", .optionT (.decimalT 2 12), true, false⟩,
   ⟨"maximum_stock", .optionT (.decimalT 2 12), true, false⟩,
   ⟨"supplier_name", .optionT (.strT 200), true, false⟩,
   ⟨"supplier_contact", .optionT (.strT 200), true, false⟩]

/-- Fields of the shape `InventoryMovementCreate` (models.py lines 340-346). -/
def inventoryMovementCreateFields : List FieldSpec :=
  [⟨"raw_material_id", .intT, false, false⟩,
   ⟨"movement_type", .enumT "InventoryMovementType", false, false⟩,
   ⟨"quantity", .decimalT 2 12, false, false⟩,
   ⟨"unit_price", .decimalT 2 12, true, false⟩,
   ⟨"reference_number", .strT 100, true, false⟩,
   ⟨"notes", .strT 500, true, false⟩]

/-- Fields of the shape `CustomerCreate` (models.py lines 349-356). -/
def customerCreateFields : List FieldSpec :=
  [⟨"name", .strT 200, false, false⟩,
   ⟨"company", .strT 200, true, false⟩,
   ⟨"email", .strT 255, true, false⟩,
   ⟨"phone", .strT 50, true, false⟩,
   ⟨"address", .strT 1000, true, false⟩,
   ⟨"city", .strT 100, true, false⟩,
   ⟨"postal_code", .strT 20, true, false⟩]

/-- Fields of the shape `OrderCreate` (models.py lines 359-363). -/
def orderCreateFields : List FieldSpec :=
  [⟨"order_number", .strT 50, false, false⟩,
   ⟨"customer_id", .intT, false, false⟩,
   ⟨"due_date", .dayT, false, false⟩,
   ⟨"notes", .strT 1000, true, false⟩]

/-- Fields of the shape `OrderUpdate` (models.py lines 366-371). -/
def orderUpdateFields : List FieldSpec :=
  [⟨"status", .optionT (.enumT "OrderStatus"), true, false⟩,
   ⟨"due_date", .optionT .dayT, true, false⟩,
   ⟨"completion_date", .optionT .dayT, true, false⟩,
   ⟨"delivery_date", .optionT .dayT, true, false⟩,
   ⟨"notes", .optionT (.strT 1000), true, false⟩]

/-- Fields of the shape `EmployeeCreate` (models.py lines 374-386). -/
def employeeCreateFields : List FieldSpec :=
  [⟨"employee_number", .strT 50, false, false⟩,
   ⟨"full_name", .strT 200, false, false⟩,
   ⟨"email", .strT 255, true, false⟩,
   ⟨"phone", .strT 50, true, false⟩,
   ⟨"address", .strT 1000, true, false⟩,
   ⟨"birth_date", .optionT .dayT, true, false⟩,
   ⟨"hire_date", .dayT, true, false⟩,
   ⟨"department_id", .intT, false, false⟩,
   ⟨"position", .strT 200, false, false⟩,
   ⟨"salary", .optionT (.decimalT 2 12), true, false⟩,
   ⟨"emergency_contact_name", .strT 200, true, false⟩,
   ⟨"emergency_contact_phone", .strT 50, true, false⟩]

/-- Fields of the shape `FinancialTransactionCreate` (models.py 389-397). -/
def financialTransactionCreateFields : List FieldSpec :=
  [⟨"transaction_number", .strT 50, false, false⟩,
   ⟨"category_id", .intT, false, false⟩,
   ⟨"transaction_type", .enumT "TransactionType", false, false⟩,
   ⟨"amount", .decimalT 2 15, false, false⟩,
   ⟨"description", .strT 1000, false, false⟩,
   ⟨"reference_number", .strT 100, true, false⟩,
   ⟨"transaction_date", .dayT, true, false⟩,
   ⟨"payment_method", .strT 100, true, false⟩]

/-- Every field table declared in models.py. -/
def allFieldTables : List (List FieldSpec) :=
  [userFields, rawMaterialFields, inventoryMovementFields, stockOpnameFields,
   stockOpnameItemFields, customerFields, orderFields, productFields,
   orderItemFields, financialCategoryFields, financialTransactionFields,
   departmentFields, employeeFields, userCreateFields, userUpdateFields,
   rawMaterialCreateFields, rawMaterialUpdateFields,
   inventoryMovementCreateFields, customerCreateFields, orderCreateFields,
   orderUpdateFields, employeeCreateFields, financialTransactionCreateFields]

/-- The server-assigned field classes excluded by the spec's Create-shape
rule: the identifier, the timestamps, and the computed (denormalized)
totals. -/
def claimServerAssigned (n : String) : Bool :=
  n == "id" || n == "created_at" || n == "updated_at" || n == "total_value" ||
    n == "total_amount" || n == "total_price" || n == "current_stock" ||
    n == "difference"

/-- The exclusions the code actually needs: the spec's server-assigned classes
plus the server-supplied `user_id` (taken from the authenticated caller) and
`password_hash` (derived from the submitted plain password). -/
def amendedServerAssigned (n : String) : Bool :=
  claimServerAssigned n || n == "user_id" || n == "password_hash"

/-- `requiredCovered excl efs cfs` holds when every entity column in `efs`
that has no default and is not excluded by `excl` appears by name in the
create shape `cfs`. -/
def requiredCovered (excl : String → Bool) (efs cfs : List FieldSpec) : Bool :=
  efs.all fun f =>
    f.hasDefault || excl f.fname || cfs.any fun g => g.fname == f.fname

/-- C5 counterexample: under the spec's exclusion list (id, timestamps,
computed totals) the Create shapes do not cover all required entity fields:
`InventoryMovement.user_id` has no default, falls in no excluded class, and is
absent from `InventoryMovementCreate`; the same holds for
`FinancialTransaction.user_id` and `User.password_hash`. -/
theorem create_shape_missing_user_id :
    requiredCovered claimServerAssigned inventoryMovementFields
        inventoryMovementCreateFields = false ∧
      (inventoryMovementFields.any fun f =>
        f.fname == "user_id" && !f.hasDefault) = true ∧
      claimServerAssigned "user_id" = false ∧
      (inventoryMovementCreateFields.all fun g => g.fname != "user_id") = true ∧
      requiredCovered claimServerAssigned financialTransactionFields
        financialTransactionCreateFields = false ∧
      requiredCovered claimServerAssigned userFields userCreateFields = false := by
  decide

/-- C5 (amended): once `user_id` and `password_hash` are also recognized as
server-supplied, every entity with a Create shape has all of its remaining
no-default fields carried by that shape; in particular this holds for
`InventoryMovementCreate` and `FinancialTransactionCreate`. -/
theorem create_shapes_cover_required_amended :
    requiredCovered amendedServerAssigned userFields userCreateFields = true ∧
      requiredCovered amendedServerAssigned rawMaterialFields
        rawMaterialCreateFields = true ∧
      requiredCovered amendedServerAssigned inventoryMovementFields
        inventoryMovementCreateFields = true ∧
      requiredCovered amendedServerAssigned customerFields
        customerCreateFields = true ∧
      requiredCovered amendedServerAssigned orderFields orderCreateFields = true ∧
      requiredCovered amendedServerAssigned employeeFields
        employeeCreateFields = true ∧
      requiredCovered amendedServerAssigned financialTransactionFields
        financialTransactionCreateFields = true := by
  decide

/-- `uniqueDeclared tbl n` holds when the column `n` of `tbl` is declared
`unique=True`. -/
def uniqueDeclared (tbl : List FieldSpec) (n : String) : Bool :=
  tbl.any fun f => f.fname == n && f.uniq

/-- Modelled from the spec: the data-access layer rejects a create whose
uniquely-constrained value collides with a stored row and otherwise appends
the row; that enforcement code is not in the repository.  `dup x y` reports a
collision between the new row `x` and the stored row `y` on some unique
column.  On rejection the stored list is returned unchanged alongside the
validation error. -/
def insertUniqueS {α : Type} (dup : α → α → Bool) (db : List α) (x : α) :
    Option String × List α :=
  if db.any (dup x) then (some "unique constraint violated", db)
  else (none, db ++ [x])

/-- C7: the schema declares `User.username`, `User.email`,
`RawMaterial.code`, `Product.code`, every number column
(`opname_number`, `order_number`, `transaction_number`, `employee_number`)
and `Department.name` unique; the modelled uniqueness-checked create fails
with a validation error and leaves the stored rows unchanged when the new
row collides with a stored one, and appends the row when the value is
fresh. -/
theorem unique_insert_behavior {α : Type} (dup : α → α → Bool)
    (db : List α) (x : α) :
    ((uniqueDeclared userFields "username" && uniqueDeclared userFields "email" &&
        uniqueDeclared rawMaterialFields "code" &&
        uniqueDeclared productFields "code" &&
        uniqueDeclared stockOpnameFields "opname_number" &&
        uniqueDeclared orderFields "order_number" &&
        uniqueDeclared financialTransactionFields "transaction_number" &&
        uniqueDeclared employeeFields "employee_number" &&
        uniqueDeclared departmentFields "name") = true) ∧
      (db.any (dup x) = true →
        insertUniqueS dup db x = (some "unique constraint violated", db)) ∧
      (db.any (dup x) = false →
        insertUniqueS dup db x = (none, db ++ [x])) := by
  refine ⟨by decide, fun h => ?_, fun h => ?_⟩
  · simp [insertUniqueS, h]
  · simp [insertUniqueS, h]

/-- Collision on either unique column of `User`. -/
def userDup (x y : User) : Bool :=
  x.username == y.username || x.email == y.email

/-- Stored example user. -/
def exUserA : User :=
  ⟨some 1, "alice", "alice@factory.test", "h1", "Alice", .administrator, true, 0, none⟩

/-- New user colliding with `exUserA` on `username`. -/
def exUserB : User :=
  ⟨none, "alice", "other@factory.test", "h2", "Another Alice",
    .inventory_manager, true, 1, none⟩

/-- New user with fresh `username` and `email`. -/
def exUserC : User :=
  ⟨none, "carol", "carol@factory.test", "h3", "Carol", .financial_staff, true, 2, none⟩

/-- Witness for C7: creating the duplicate `exUserB` over `[exUserA]` fails
and leaves the store unchanged; creating the fresh `exUserC` succeeds. -/
theorem unique_insert_behavior_witness :
    insertUniqueS userDup [exUserA] exUserB =
        (some "unique constraint violated", [exUserA]) ∧
      insertUniqueS userDup [exUserA] exUserC = (none, [exUserA, exUserC]) :=
  ⟨(unique_insert_behavior userDup [exUserA] exUserB).2.1 (by decide),
    (unique_insert_behavior userDup [exUserA] exUserC).2.2 (by decide)⟩

/-- The monetary and quantity column names singled out by the spec. -/
def moneyName (n : String) : Bool :=
  n == "unit_price" || n == "quantity" || n == "total_value" ||
    n == "total_price" || n == "total_amount" || n == "amount" || n == "salary"

/-- A column type is an exact fixed-point decimal with 2 fractional digits,
possibly optional; no floating-point column type exists in the schema at
all. -/
def isExactDecimal2 : FType → Bool
  | .decimalT 2 _ => true
  | .optionT (.decimalT 2 _) => true
  | _ => false

/-- C8: in every declared model of the schema, every column named
`unit_price`, `quantity`, `total_value`, `total_price`, `total_amount`,
`amount` or `salary` is declared as a fixed-point decimal with exactly 2
fractional digits (possibly optional), never as a binary floating-point type;
each of those names does occur in the schema. -/
theorem money_fields_decimal2 :
    (allFieldTables.all fun tbl =>
        tbl.all fun f => !moneyName f.fname || isExactDecimal2 f.ftype) = true ∧
      (["unit_price", "quantity", "total_value", "total_price", "total_amount",
          "amount", "salary"].all fun n =>
        allFieldTables.any fun tbl => tbl.any fun f => f.fname == n) = true := by
  decide

end BagFactory
